import Mathlib

/-
Verification of the filter-aggregate-forecast pipeline of the mental-health
dashboard (src/Final.py) against its specification.

Shallow embedding conventions:
* a pandas DataFrame row is a `Record`; the dataset is a `List Record` in row
  order; `timestamp` is kept at month granularity (an absolute month number),
  since the only pipeline operation reading it groups records by calendar month;
* boolean-mask filtering (`df[mask]`) is `List.filter`, which preserves row order;
* `value_counts` and `groupby` aggregations are counts over the list; `groupby`
  sorts its keys, modelled by an insertion sort, and the descending
  `sort_values(..., ascending=False)` is modelled, following
  `pandas.core.sorting.nargsort`, as the reverse of the ascending (stable,
  matching the small-array insertion sort of numpy) argsort;
* an operation that raises a Python exception returns `Except.error` carrying
  the exception kind; a pandas NaN produced by aggregating zero rows is
  `Option.none`;
* `resample('M').count()` produces one bin per calendar month from the first
  to the last timestamp of the frame inclusive, empty bins counting 0, and
  raises nothing; on an empty frame it yields an empty frame;
* `sklearn.linear_model.LinearRegression` (default `fit_intercept=True`)
  centres the data and takes the minimum-norm least-squares solution, computed
  here over ℚ: slope = Sxy / Sxx when Sxx ≠ 0, slope = 0 when Sxx = 0 (a single
  sample, where the centred design matrix is zero and the minimum-norm solution
  of `0·w = 0` is `w = 0`), intercept = ȳ − slope·x̄; fitting an empty design
  matrix raises ValueError.
-/

/-- Kinds of Python exceptions the pipeline can raise. -/
inductive DashboardError where
  | keyError
  | typeError
  | valueError
  deriving DecidableEq, Repr

/-- One survey response (one row of the cleaned CSV).  `timestamp` is the
absolute calendar-month number of the timestamp of the row. -/
structure Record where
  country : String
  gender : String
  age : Int
  treatment : String
  family_history : String
  timestamp : Nat
  deriving DecidableEq, Repr

/-- `Final.py` lines 20–23: with no country selected the mask series is built
from the full `country` column itself, so every row passes. -/
def filtered_countries (df : List Record) (selected_countries : List String) : List String :=
  if selected_countries.isEmpty then df.map (fun r => r.country) else selected_countries

/-- `Final.py` lines 30–33: with no gender selected the mask series is built
from the full `gender` column itself, so every row passes. -/
def filtered_genders (df : List Record) (selected_genders : List String) : List String :=
  if selected_genders.isEmpty then df.map (fun r => r.gender) else selected_genders

/-- `Final.py` lines 42–46: conjunction of `isin` masks with an inclusive
`between` on age, applied as a boolean row mask (row order preserved). -/
def filtered_data (df : List Record) (selected_countries selected_genders : List String)
    (age_lo age_hi : Int) : List Record :=
  df.filter (fun r =>
    (filtered_countries df selected_countries).contains r.country &&
    ((filtered_genders df selected_genders).contains r.gender &&
     (decide (age_lo ≤ r.age) && decide (r.age ≤ age_hi))))

/-- The row predicate as the specification words it (§4.1 `applyFilter`):
country in the set or the set is empty, gender in the set or the set is empty,
age within the inclusive range, the three conjoined.  Declared only to compare
`filtered_data` against the description given by the spec. -/
def specFilterPred (countries genders : List String) (age_lo age_hi : Int) (r : Record) : Bool :=
  (countries.isEmpty || countries.contains r.country) &&
  ((genders.isEmpty || genders.contains r.gender) &&
   (decide (age_lo ≤ r.age) && decide (r.age ≤ age_hi)))

/-- Smallest age in the dataset (`int(df['age'].min())`); 0 on an empty frame. -/
def minAge : List Record → Int
  | [] => 0
  | r :: rs => rs.foldl (fun m s => min m s.age) r.age

/-- Largest age in the dataset (`int(df['age'].max())`); 0 on an empty frame. -/
def maxAge : List Record → Int
  | [] => 0
  | r :: rs => rs.foldl (fun m s => max m s.age) r.age

/-- pandas `sort_values(..., ascending=False)` via `nargsort`: the ascending
argsort (stable for this model, matching the small-array insertion sort of
numpy) is computed and then reversed. -/
def sort_values_desc {α : Type} (key : α → Nat) (l : List α) : List α :=
  (List.insertionSort (fun a b => key a ≤ key b) l).reverse

/-- `Final.py` lines 66–67: `value_counts` of the `country` column — one row
per distinct country with its number of entries, sorted descending by count. -/
def country_counts (view : List Record) : List (String × Nat) :=
  sort_values_desc (fun p => p.2)
    (((view.map (fun r => r.country)).dedup).map
      (fun c => (c, view.countP (fun r => r.country == c))))

/-- Lexicographic comparison of character lists.  (`String ≤` itself is
decided by `String.ltb`, whose well-founded recursion does not reduce inside
the kernel, so the alphabetical order used by `groupby` on its keys is
computed on the underlying character lists instead.) -/
def charListLe : List Char → List Char → Bool
  | [], _ => true
  | _ :: _, [] => false
  | a :: as, b :: bs => if a = b then charListLe as bs else decide (a < b)

/-- Alphabetical (lexicographic) order on strings. -/
def strLe (a b : String) : Bool := charListLe a.data b.data

/-- Insert into an alphabetically sorted list of strings. -/
def orderedInsertStr (a : String) : List String → List String
  | [] => [a]
  | b :: l => if strLe a b then a :: b :: l else b :: orderedInsertStr a l

/-- The sorted group keys of a pandas `groupby` (default `sort=True`):
insertion sort by alphabetical order. -/
def sortStrings : List String → List String
  | [] => []
  | a :: l => orderedInsertStr a (sortStrings l)

/-- `Final.py` lines 79–85: group the view by `country` (group keys come out
sorted), count the `family_history` values inside each group, then
`unstack(fill_value=0)`.  The unstacked frame only has a `Yes` column when some
row of the view has `family_history == "Yes"`; `sort_values(by='Yes')` on a
frame without that column raises `KeyError` (this also covers the empty view,
whose unstacked frame has no columns at all).  Otherwise the frame is sorted
descending by the `Yes` count and truncated to the first 10 rows.  A row is
`(country, yesCount, noCount)`. -/
def family_history_by_country (view : List Record) :
    Except DashboardError (List (String × Nat × Nat)) :=
  if view.any (fun r => r.family_history == "Yes") then
    let countries := sortStrings ((view.map (fun r => r.country)).dedup)
    let table := countries.map (fun c =>
      (c, view.countP (fun r => r.country == c && r.family_history == "Yes"),
          view.countP (fun r => r.country == c && r.family_history == "No")))
    Except.ok ((sort_values_desc (fun row => row.2.1) table).take 10)
  else Except.error DashboardError.keyError

/-- A two-record view with two tied countries: `A` and `B` each have one
`family_history = "Yes"` record.  The grouped table lists `A` before `B`. -/
def vTie : List Record :=
  [⟨"A", "M", 30, "No", "Yes", 0⟩, ⟨"B", "M", 31, "No", "Yes", 0⟩]

/-- A one-record view (so non-empty) in which no record has
`family_history = "Yes"`; it is its own filtered view. -/
def vNo : List Record := [⟨"A", "M", 30, "No", "No", 0⟩]

/-- The KPI features offered by the selectbox (`Final.py` line 50). -/
inductive KPIFeature where
  | age
  | treatment
  | family_history
  deriving DecidableEq, Repr

/-- `Final.py` line 95: `filtered_data[selected_kpi].mean()`.  `age` is a
numeric column, whose pandas mean is NaN (`none`) over zero rows and the
arithmetic mean otherwise.  `treatment` and `family_history` hold the strings
"Yes"/"No" (object dtype): pandas `Series.mean` sums the column — string
concatenation — and raises `TypeError` when the sum cannot be converted to a
number; over zero rows the sum is the numeric 0 and the mean is NaN (`none`).
The 2-decimal display rounding of the KPI card is presentation formatting and
is not modelled. -/
def kpiAverage (view : List Record) : KPIFeature → Except DashboardError (Option ℚ)
  | KPIFeature.age =>
    if view.isEmpty then Except.ok none
    else Except.ok (some ((view.map (fun r => (r.age : ℚ))).sum / (view.length : ℚ)))
  | KPIFeature.treatment =>
    if view.isEmpty then Except.ok none else Except.error DashboardError.typeError
  | KPIFeature.family_history =>
    if view.isEmpty then Except.ok none else Except.error DashboardError.typeError

/-- `Final.py` line 96: `(filtered_data['treatment'] == 'Yes').mean() * 100`.
The mean of an empty boolean series is NaN (`none`). -/
def treatmentRate (view : List Record) : Option ℚ :=
  if view.isEmpty then none
  else some (((view.countP (fun r => r.treatment == "Yes") : ℚ)) / (view.length : ℚ) * 100)

/-- The three KPI card values of `Final.py` lines 94–96. -/
structure KPIs where
  totalEntries : Nat
  kpiAverage : Option ℚ
  treatmentRate : Option ℚ
  deriving DecidableEq, Repr

/-- `Final.py` lines 94–96 as one operation: the average metric raises on a
non-empty categorical column and the whole tab fails with it; the count and
treatment-rate metrics never raise. -/
def computeKPIs (view : List Record) (feature : KPIFeature) : Except DashboardError KPIs :=
  match kpiAverage view feature with
  | Except.error e => Except.error e
  | Except.ok avg => Except.ok ⟨view.length, avg, treatmentRate view⟩

/-- Smallest month number among the records of the view; 0 on an empty view. -/
def minMonth : List Record → Nat
  | [] => 0
  | r :: rs => rs.foldl (fun m s => min m s.timestamp) r.timestamp

/-- Largest month number among the records of the view; 0 on an empty view. -/
def maxMonth : List Record → Nat
  | [] => 0
  | r :: rs => rs.foldl (fun m s => max m s.timestamp) r.timestamp

/-- `Final.py` line 118:
`set_index('timestamp').resample('M')['treatment'].count()` — one row per
calendar month, from the first to the last month of the view inclusive
(`resample` synthesizes the bins in between, so a month without records gets a
zero-count row), each row carrying the number of records of the view falling
in that month; empty on an empty view.  A row is `(month, count)`. -/
def time_data (view : List Record) : List (Nat × Nat) :=
  if view.isEmpty then []
  else (List.range (maxMonth view - minMonth view + 1)).map
    (fun i => (minMonth view + i, view.countP (fun r => r.timestamp == minMonth view + i)))

/-- Closed form of `sklearn.linear_model.LinearRegression` (default
`fit_intercept=True`) for the single regressor `x i = i`, over ℚ: the data are
centred and the minimum-norm least-squares solution is taken, so the slope is
`Sxy / Sxx` when `Sxx ≠ 0` and `0` when the centred design matrix vanishes (a
single sample); the intercept is `ȳ − slope·x̄`.  Returns `(slope, intercept)`. -/
def olsFit (ys : List ℚ) : ℚ × ℚ :=
  let n : ℚ := (ys.length : ℚ)
  let xs : List ℚ := (List.range ys.length).map (fun i => (i : ℚ))
  let xbar := xs.sum / n
  let ybar := ys.sum / n
  let sxx := (xs.map (fun x => (x - xbar) ^ 2)).sum
  let sxy := ((xs.zip ys).map (fun p => (p.1 - xbar) * (p.2 - ybar))).sum
  let slope := if sxx = 0 then 0 else sxy / sxx
  (slope, ybar - slope * xbar)

/-- One row of the trend table of `Final.py` lines 118–125. -/
structure MonthlyPoint where
  month_index : Nat
  timestamp : Nat
  treatment : Nat
  predicted_treatment : ℚ
  deriving DecidableEq, Repr

/-- `Final.py` lines 118–125: the resampled monthly series with
`month_index = np.arange(len(time_data))`, the fitted regression and its
in-sample predictions.  Fitting the empty design matrix of an empty view
raises `ValueError` inside sklearn (`Found array with 0 sample(s)`). -/
def monthlyTrend (view : List Record) : Except DashboardError (List MonthlyPoint) :=
  let td := time_data view
  if td.isEmpty then Except.error DashboardError.valueError
  else
    let fit := olsFit (td.map (fun p => (p.2 : ℚ)))
    Except.ok (td.enum.map (fun p => ⟨p.1, p.2.1, p.2.2, fit.1 * (p.1 : ℚ) + fit.2⟩))

/-- Number of distinct calendar months among the records of the view. -/
def distinctMonths (view : List Record) : Nat :=
  ((view.map (fun r => r.timestamp)).dedup).length

/-- Two records two calendar months apart, leaving a gap month between them. -/
def vGap : List Record :=
  [⟨"A", "M", 30, "Yes", "Yes", 0⟩, ⟨"A", "M", 40, "No", "Yes", 2⟩]

/-- One record, hence one calendar month. -/
def vOne : List Record := [⟨"A", "M", 30, "Yes", "Yes", 5⟩]

/-- Two records in consecutive calendar months. -/
def vAdj : List Record :=
  [⟨"A", "M", 30, "Yes", "Yes", 3⟩, ⟨"B", "F", 40, "No", "No", 4⟩]

theorem foldl_min_le_init (l : List Record) (i : Int) :
    l.foldl (fun m s => min m s.age) i ≤ i := by
  induction l generalizing i with
  | nil => simp
  | cons r rs ih =>
    exact le_trans (ih (min i r.age)) (min_le_left _ _)

theorem foldl_min_le_mem (l : List Record) (i : Int) (r : Record) (hr : r ∈ l) :
    l.foldl (fun m s => min m s.age) i ≤ r.age := by
  induction l generalizing i with
  | nil => cases hr
  | cons a as ih =>
    rcases List.mem_cons.mp hr with h | h
    · subst h
      exact le_trans (foldl_min_le_init as _) (min_le_right _ _)
    · exact ih _ h

theorem init_le_foldl_max (l : List Record) (i : Int) :
    i ≤ l.foldl (fun m s => max m s.age) i := by
  induction l generalizing i with
  | nil => simp
  | cons r rs ih =>
    exact le_trans (le_max_left _ _) (ih (max i r.age))

theorem mem_le_foldl_max (l : List Record) (i : Int) (r : Record) (hr : r ∈ l) :
    r.age ≤ l.foldl (fun m s => max m s.age) i := by
  induction l generalizing i with
  | nil => cases hr
  | cons a as ih =>
    rcases List.mem_cons.mp hr with h | h
    · subst h
      exact le_trans (le_max_right _ _) (init_le_foldl_max as _)
    · exact ih _ h

theorem minAge_le (df : List Record) (r : Record) (hr : r ∈ df) : minAge df ≤ r.age := by
  cases df with
  | nil => cases hr
  | cons a as =>
    rcases List.mem_cons.mp hr with h | h
    · subst h; exact foldl_min_le_init as _
    · exact foldl_min_le_mem as _ _ h

theorem le_maxAge (df : List Record) (r : Record) (hr : r ∈ df) : r.age ≤ maxAge df := by
  cases df with
  | nil => cases hr
  | cons a as =>
    rcases List.mem_cons.mp hr with h | h
    · subst h; exact init_le_foldl_max as _
    · exact mem_le_foldl_max as _ _ h

/-- C1: for every dataset and filter parameters, the filtered view is exactly
the subsequence of the dataset whose rows satisfy the conjunction of the three
spec predicates (country in the selected set or the set empty, gender likewise,
age inclusively within the range), in the original dataset order. -/
theorem filtered_data_eq_spec_filter (df : List Record)
    (cs gs : List String) (lo hi : Int) :
    filtered_data df cs gs lo hi = df.filter (specFilterPred cs gs lo hi) ∧
    (filtered_data df cs gs lo hi).Sublist df := by
  constructor
  · apply List.filter_congr
    intro r hr
    simp only [specFilterPred, filtered_countries, filtered_genders]
    have hcm : ∃ a ∈ df, a.country = r.country := ⟨r, hr, rfl⟩
    have hgm : ∃ a ∈ df, a.gender = r.gender := ⟨r, hr, rfl⟩
    by_cases hc : cs.isEmpty <;> by_cases hg : gs.isEmpty <;>
      simp [hc, hg, List.mem_map, hcm, hgm]
  · exact List.filter_sublist df

/-- C5: filtering with no selected country, no selected gender, and the age
range `[min(df.age), max(df.age)]` returns the dataset unchanged. -/
theorem full_range_filter_identity (df : List Record) :
    filtered_data df [] [] (minAge df) (maxAge df) = df := by
  apply List.filter_eq_self.mpr
  intro r hr
  simp [filtered_countries, filtered_genders, List.mem_map]
  refine ⟨⟨r, hr, rfl⟩, ⟨r, hr, rfl⟩, minAge_le df r hr, le_maxAge df r hr⟩

/-- C6: the per-country entry counts sum to the number of records in the view. -/
theorem country_counts_sum_eq_length (view : List Record) :
    ((country_counts view).map (fun p => p.2)).sum = view.length := by
  have hperm : List.Perm ((country_counts view).map (fun p => p.2))
      ((((view.map (fun r => r.country)).dedup).map
        (fun c => (c, view.countP (fun r => r.country == c)))).map (fun p => p.2)) := by
    apply List.Perm.map
    unfold country_counts sort_values_desc
    exact (List.reverse_perm _).trans (List.perm_insertionSort _ _)
  rw [hperm.sum_eq, List.map_map]
  have hfun : (((view.map (fun r => r.country)).dedup).map
        ((fun p => p.2) ∘ (fun c => (c, view.countP (fun r => r.country == c))))) =
      (((view.map (fun r => r.country)).dedup).map
        (fun c => (view.map (fun r => r.country)).count c)) := by
    apply List.map_congr_left
    intro c _
    simp [List.count, List.countP_map, Function.comp_def]
  rw [hfun]
  have := List.sum_map_count_dedup_eq_length (view.map (fun r => r.country))
  simpa using this

/-- C7 (amended): whenever the top-10 family-history table is produced at all,
it has at most 10 rows and is sorted in non-increasing order of the `Yes`
count.  (The tie-break of the original claim is refuted separately: the
descending sort reverses the grouped-table order of tied countries.) -/
theorem family_history_top10_sorted (view : List Record) (l : List (String × Nat × Nat))
    (h : family_history_by_country view = Except.ok l) :
    l.length ≤ 10 ∧ l.Pairwise (fun a b => b.2.1 ≤ a.2.1) := by
  unfold family_history_by_country at h
  split at h
  · simp only [Except.ok.injEq] at h
    subst h
    constructor
    · simp [List.length_take_le]
    · apply List.Pairwise.sublist (List.take_sublist _ _)
      unfold sort_values_desc
      rw [List.pairwise_reverse]
      haveI ht : IsTotal (String × Nat × Nat) (fun a b => a.2.1 ≤ b.2.1) :=
        ⟨fun a b => Nat.le_total _ _⟩
      haveI htr : IsTrans (String × Nat × Nat) (fun a b => a.2.1 ≤ b.2.1) :=
        ⟨fun _ _ _ hab hbc => Nat.le_trans hab hbc⟩
      exact List.sorted_insertionSort _ _
  · cases h

theorem family_history_top10_sorted_witness :
    ([("B", 1, 0), ("A", 1, 0)] : List (String × Nat × Nat)).length ≤ 10 ∧
    ([("B", 1, 0), ("A", 1, 0)] : List (String × Nat × Nat)).Pairwise
      (fun a b => b.2.1 ≤ a.2.1) :=
  family_history_top10_sorted vTie _ rfl

/-- C7 (counterexample to the stated tie-break): on `vTie` the grouped table is
`[("A",1,0), ("B",1,0)]` (countries sorted, tied `Yes` counts), but the
descending sort emits `B` before `A` — tied countries do NOT keep their
pre-sort relative order. -/
theorem family_history_tie_break_reversed :
    family_history_by_country vTie = Except.ok [("B", 1, 0), ("A", 1, 0)] ∧
    sortStrings ((vTie.map (fun r => r.country)).dedup) = ["A", "B"] :=
  ⟨rfl, rfl⟩

/-- C10: on a non-empty view with no `family_history = "Yes"` record the
grouped-and-unstacked table has no `Yes` column, so sorting by `Yes` raises
`KeyError` — the operation is not total and does not treat the missing
category as count 0. -/
theorem family_history_missing_yes_column_raises :
    vNo.length = 1 ∧
    vNo.all (fun r => r.family_history == "No") = true ∧
    filtered_data vNo [] [] 0 100 = vNo ∧
    family_history_by_country vNo = Except.error DashboardError.keyError :=
  ⟨rfl, rfl, rfl, rfl⟩

/-- C4 (amended): on the empty view the KPI computation does not raise and
`totalEntries = 0`, but the two mean-based metrics are pandas NaN (`none`),
not 0.0; `countByCountry` yields the empty table; and two aggregate operations
do fail on the empty view: the family-history table raises `KeyError` and the
trend fit raises `ValueError`. -/
theorem empty_view_aggregates :
    computeKPIs [] KPIFeature.age = Except.ok ⟨0, none, none⟩ ∧
    treatmentRate [] = none ∧
    country_counts [] = [] ∧
    family_history_by_country [] = Except.error DashboardError.keyError ∧
    monthlyTrend [] = Except.error DashboardError.valueError :=
  ⟨rfl, rfl, rfl, rfl, rfl⟩

/-- C4 (counterexample): the treatment rate of the empty view is NaN (`none`)
— the mean of an empty boolean series — where the claim requires exactly 0.0,
and `monthlyTrend` fails on the empty view although the claim requires every
aggregate operation to return an empty or zero-valued result rather than fail. -/
theorem empty_view_rate_is_nan :
    treatmentRate [] = none ∧
    monthlyTrend [] = Except.error DashboardError.valueError :=
  ⟨rfl, rfl⟩

/-- C8 (amended): for every non-empty view, requesting the average of a
categorical column (`treatment` or `family_history`) fails — pandas raises an
uncaught `TypeError` trying to convert the concatenated "Yes"/"No" strings to
a number; the code has no recoverable `UnsupportedAggregation` — and no
numeric mean is produced.  (On the empty view the metric is instead NaN with
no failure; see the counterexample.) -/
theorem categorical_average_raises (view : List Record) (feature : KPIFeature)
    (hne : view.isEmpty = false)
    (hcat : feature = KPIFeature.treatment ∨ feature = KPIFeature.family_history) :
    computeKPIs view feature = Except.error DashboardError.typeError := by
  rcases hcat with h | h <;> subst h <;> simp [computeKPIs, kpiAverage, hne]

theorem categorical_average_raises_witness :
    computeKPIs vOne KPIFeature.treatment = Except.error DashboardError.typeError :=
  categorical_average_raises vOne KPIFeature.treatment rfl (Or.inl rfl)

/-- C8 (counterexample): on the empty view the categorical average does not
fail: the empty object column sums to the numeric 0, the mean is NaN (`none`),
and the KPI computation succeeds. -/
theorem empty_categorical_average_succeeds :
    computeKPIs [] KPIFeature.treatment = Except.ok ⟨0, none, none⟩ :=
  rfl

theorem foldl_min_ts_le_init (l : List Record) (i : Nat) :
    l.foldl (fun m s => min m s.timestamp) i ≤ i := by
  induction l generalizing i with
  | nil => simp
  | cons r rs ih =>
    exact le_trans (ih (min i r.timestamp)) (min_le_left _ _)

theorem foldl_min_ts_le_mem (l : List Record) (i : Nat) (r : Record) (hr : r ∈ l) :
    l.foldl (fun m s => min m s.timestamp) i ≤ r.timestamp := by
  induction l generalizing i with
  | nil => cases hr
  | cons a as ih =>
    rcases List.mem_cons.mp hr with h | h
    · subst h
      exact le_trans (foldl_min_ts_le_init as _) (min_le_right _ _)
    · exact ih _ h

theorem init_le_foldl_max_ts (l : List Record) (i : Nat) :
    i ≤ l.foldl (fun m s => max m s.timestamp) i := by
  induction l generalizing i with
  | nil => simp
  | cons r rs ih =>
    exact le_trans (le_max_left _ _) (ih (max i r.timestamp))

theorem mem_le_foldl_max_ts (l : List Record) (i : Nat) (r : Record) (hr : r ∈ l) :
    r.timestamp ≤ l.foldl (fun m s => max m s.timestamp) i := by
  induction l generalizing i with
  | nil => cases hr
  | cons a as ih =>
    rcases List.mem_cons.mp hr with h | h
    · subst h
      exact le_trans (le_max_right _ _) (init_le_foldl_max_ts as _)
    · exact ih _ h

theorem minMonth_le (view : List Record) (r : Record) (hr : r ∈ view) :
    minMonth view ≤ r.timestamp := by
  cases view with
  | nil => cases hr
  | cons a as =>
    rcases List.mem_cons.mp hr with h | h
    · subst h; exact foldl_min_ts_le_init as _
    · exact foldl_min_ts_le_mem as _ _ h

theorem le_maxMonth (view : List Record) (r : Record) (hr : r ∈ view) :
    r.timestamp ≤ maxMonth view := by
  cases view with
  | nil => cases hr
  | cons a as =>
    rcases List.mem_cons.mp hr with h | h
    · subst h; exact init_le_foldl_max_ts as _
    · exact mem_le_foldl_max_ts as _ _ h

theorem minMonth_le_maxMonth (view : List Record) (h : view ≠ []) :
    minMonth view ≤ maxMonth view := by
  cases view with
  | nil => exact absurd rfl h
  | cons a as =>
    exact le_trans (minMonth_le (a :: as) a (List.mem_cons_self a as))
      (le_maxMonth (a :: as) a (List.mem_cons_self a as))

theorem time_data_isEmpty (view : List Record) :
    (time_data view).isEmpty = view.isEmpty := by
  cases hv : view.isEmpty with
  | true => unfold time_data; simp [hv]
  | false =>
    unfold time_data
    rw [hv]
    simp [List.isEmpty_iff]

/-- C2 (amended): for every view, the resampled monthly table holds the pair
`(m, c)` exactly when the view is non-empty, `m` lies in the inclusive span
from the first to the last calendar month of the view, and `c` counts the
records of the view in month `m` (0 for a synthesized gap month); rows are in
strictly ascending month order; and `month_index` is assigned `0, 1, 2, …`
sequentially over all rows of the trend table. -/
theorem time_data_resample (view : List Record) (m c : Nat) :
    ((m, c) ∈ time_data view ↔
      (view.isEmpty = false ∧ minMonth view ≤ m ∧ m ≤ maxMonth view ∧
        c = view.countP (fun r => r.timestamp == m))) ∧
    (time_data view).Pairwise (fun p q => p.1 < q.1) ∧
    (∀ l, monthlyTrend view = Except.ok l →
      l.map (fun p => p.month_index) = List.range l.length) := by
  refine ⟨?_, ?_, ?_⟩
  · cases hv : view.isEmpty with
    | true =>
      unfold time_data
      simp [hv]
    | false =>
      have hne : view ≠ [] := by
        cases view
        · simp at hv
        · simp
      have hmm := minMonth_le_maxMonth view hne
      unfold time_data
      rw [hv]
      simp only [Bool.false_eq_true, if_false, List.mem_map, List.mem_range]
      constructor
      · rintro ⟨i, hi, hpq⟩
        rw [Prod.mk.injEq] at hpq
        obtain ⟨h1, h2⟩ := hpq
        subst h1
        subst h2
        refine ⟨by trivial, Nat.le_add_right _ _, by omega, rfl⟩
      · rintro ⟨-, hmin, hmax, hc⟩
        refine ⟨m - minMonth view, by omega, ?_⟩
        rw [Prod.mk.injEq]
        constructor
        · omega
        · rw [hc]
          have hm : minMonth view + (m - minMonth view) = m := by omega
          rw [hm]
  · cases hv : view.isEmpty with
    | true =>
      unfold time_data
      simp [hv]
    | false =>
      unfold time_data
      rw [hv]
      simp only [Bool.false_eq_true, if_false]
      rw [List.pairwise_map]
      exact (List.pairwise_lt_range _).imp (fun h => by simpa using h)
  · intro l hl
    simp only [monthlyTrend] at hl
    cases ht : (time_data view).isEmpty with
    | true => rw [ht] at hl; simp at hl
    | false =>
      rw [ht] at hl
      simp only [Bool.false_eq_true, if_false, Except.ok.injEq] at hl
      subst hl
      simp [List.map_map, Function.comp_def, List.enum_map_fst, List.enum_length]

theorem olsFit_single (y : ℚ) : olsFit [y] = (0, y) := by
  simp only [olsFit, List.length_cons, List.length_nil, List.range_succ, List.range_zero,
    List.nil_append, List.map_cons, List.map_nil, List.zip_cons_cons, List.zip_nil_left,
    List.sum_cons, List.sum_nil]
  norm_num

theorem olsFit_pair (y0 y1 : ℚ) : olsFit [y0, y1] = (y1 - y0, y0) := by
  simp only [olsFit, List.length_cons, List.length_nil, List.range_succ, List.range_zero,
    List.nil_append, List.map_cons, List.map_nil, List.zip_cons_cons, List.zip_nil_left,
    List.sum_cons, List.sum_nil]
  norm_num
  constructor
  · field_simp
    ring
  · field_simp
    ring

theorem olsFit_gap : olsFit [1, 0, 1] = (0, 2/3) := by
  simp only [olsFit, List.length_cons, List.length_nil, List.range_succ, List.range_zero,
    List.nil_append, List.map_cons, List.map_nil, List.zip_cons_cons, List.zip_nil_left,
    List.sum_cons, List.sum_nil]
  norm_num

theorem monthlyTrend_vOne_eval : monthlyTrend vOne = Except.ok [⟨0, 5, 1, 1⟩] := by
  have htd : time_data vOne = [(5, 1)] := rfl
  have henum : ([(5, 1)] : List (Nat × Nat)).enum = [(0, (5, 1))] := rfl
  simp only [monthlyTrend, htd, henum, List.isEmpty_cons, Bool.false_eq_true, if_false,
    List.map_cons, List.map_nil, Nat.cast_one, olsFit_single, Except.ok.injEq,
    MonthlyPoint.mk.injEq]
  norm_num

theorem monthlyTrend_vGap_eval :
    monthlyTrend vGap =
      Except.ok [⟨0, 0, 1, 2/3⟩, ⟨1, 1, 0, 2/3⟩, ⟨2, 2, 1, 2/3⟩] := by
  have htd : time_data vGap = [(0, 1), (1, 0), (2, 1)] := rfl
  have henum : ([(0, 1), (1, 0), (2, 1)] : List (Nat × Nat)).enum =
      [(0, (0, 1)), (1, (1, 0)), (2, (2, 1))] := rfl
  simp only [monthlyTrend, htd, henum, List.isEmpty_cons, Bool.false_eq_true, if_false,
    List.map_cons, List.map_nil, Nat.cast_one, Nat.cast_zero, olsFit_gap, Except.ok.injEq,
    MonthlyPoint.mk.injEq]
  norm_num

theorem monthlyTrend_vAdj_eval :
    monthlyTrend vAdj = Except.ok [⟨0, 3, 1, 1⟩, ⟨1, 4, 1, 1⟩] := by
  have htd : time_data vAdj = [(3, 1), (4, 1)] := rfl
  have henum : ([(3, 1), (4, 1)] : List (Nat × Nat)).enum = [(0, (3, 1)), (1, (4, 1))] := rfl
  simp only [monthlyTrend, htd, henum, List.isEmpty_cons, Bool.false_eq_true, if_false,
    List.map_cons, List.map_nil, Nat.cast_one, olsFit_pair, Except.ok.injEq,
    MonthlyPoint.mk.injEq]
  norm_num

theorem time_data_resample_witness :
    (1, 0) ∈ time_data vGap ∧
    (monthlyTrend vGap).map (fun l => l.map (fun p => p.month_index)) =
      Except.ok [0, 1, 2] := by
  have h := time_data_resample vGap 1 0
  refine ⟨h.1.mpr (by decide), ?_⟩
  have h3 := h.2.2 _ monthlyTrend_vGap_eval
  rw [monthlyTrend_vGap_eval]
  simp only [Except.map]
  rw [h3]
  rfl

/-- C2 (counterexample): the view `vGap` has records in exactly two calendar
months (months 0 and 2), yet the resampled table has three rows — `resample`
synthesizes the empty month 1 as a zero-count row, where the claim says months
with zero records produce no row at all. -/
theorem resample_synthesizes_gap_months :
    distinctMonths vGap = 2 ∧
    time_data vGap = [(0, 1), (1, 0), (2, 1)] ∧
    (time_data vGap).countP (fun p => p.2 == 0) = 1 :=
  ⟨rfl, rfl, rfl⟩

/-- C3 (amended): `monthlyTrend` fails exactly on the empty view, and then
with the unrecoverable sklearn `ValueError` (there is no `InsufficientData`
error anywhere in the code); on a view whose records all fall in a single
calendar month it does not fail at all — the regression degenerates to the
constant line through the one point and every prediction equals the actual
count. -/
theorem monthlyTrend_error_iff_empty (view : List Record) :
    (monthlyTrend view = Except.error DashboardError.valueError ↔ view = []) ∧
    (minMonth view = maxMonth view →
      ∀ l, monthlyTrend view = Except.ok l →
        ∀ p ∈ l, p.predicted_treatment = (p.treatment : ℚ)) := by
  constructor
  · constructor
    · intro he
      by_contra hne
      simp only [monthlyTrend] at he
      rw [time_data_isEmpty] at he
      have hv : view.isEmpty = false := by
        cases view
        · exact absurd rfl hne
        · rfl
      rw [hv] at he
      simp at he
    · rintro rfl
      rfl
  · intro hmm l hl p hp
    have hv : view.isEmpty = false := by
      cases hb : view.isEmpty with
      | false => rfl
      | true =>
        simp only [monthlyTrend] at hl
        rw [time_data_isEmpty, hb] at hl
        simp at hl
    have htd : time_data view =
        [(minMonth view, view.countP (fun r => r.timestamp == minMonth view))] := by
      unfold time_data
      rw [hv]
      simp only [Bool.false_eq_true, if_false]
      rw [← hmm]
      simp [Nat.sub_self, List.range_succ]
    have henum : ([(minMonth view, view.countP (fun r => r.timestamp == minMonth view))]
        : List (Nat × Nat)).enum
        = [(0, (minMonth view, view.countP (fun r => r.timestamp == minMonth view)))] := rfl
    simp only [monthlyTrend] at hl
    rw [htd] at hl
    simp only [henum, List.isEmpty_cons, Bool.false_eq_true, if_false, List.map_cons,
      List.map_nil, olsFit_single, Except.ok.injEq] at hl
    subst hl
    simp only [List.mem_singleton] at hp
    subst hp
    simp

theorem monthlyTrend_error_iff_empty_witness :
    monthlyTrend ([] : List Record) = Except.error DashboardError.valueError ∧
    (⟨0, 5, 1, 1⟩ : MonthlyPoint).predicted_treatment = ((1 : Nat) : ℚ) := by
  constructor
  · exact (monthlyTrend_error_iff_empty ([] : List Record)).1.mpr rfl
  · exact (monthlyTrend_error_iff_empty vOne).2 (by decide)
      [⟨0, 5, 1, 1⟩] monthlyTrend_vOne_eval ⟨0, 5, 1, 1⟩ (by simp)

/-- C3 (counterexample): a view whose records span a single distinct month
does not produce any `InsufficientData` failure — the fit succeeds and returns
the constant line through the one point. -/
theorem single_month_fits_without_error :
    distinctMonths vOne = 1 ∧
    monthlyTrend vOne = Except.ok [⟨0, 5, 1, 1⟩] :=
  ⟨rfl, monthlyTrend_vOne_eval⟩

/-- C9 (amended): when the resampled monthly series has exactly two rows —
records spanning exactly two consecutive calendar months — the least-squares
line passes through both points and every prediction equals its actual count.
(Records in two distinct but non-consecutive months give three resampled rows
and an inexact fit; see the counterexample.) -/
theorem two_consecutive_months_exact_fit (view : List Record)
    (h2 : (time_data view).length = 2) :
    ∀ l, monthlyTrend view = Except.ok l →
      ∀ p ∈ l, p.predicted_treatment = (p.treatment : ℚ) := by
  intro l hl p hp
  obtain ⟨a, b, htd⟩ := List.length_eq_two.mp h2
  have henum : ([a, b] : List (Nat × Nat)).enum = [(0, a), (1, b)] := rfl
  simp only [monthlyTrend] at hl
  rw [htd] at hl
  simp only [henum, List.isEmpty_cons, Bool.false_eq_true, if_false, List.map_cons,
    List.map_nil, olsFit_pair, Except.ok.injEq] at hl
  subst hl
  simp only [List.mem_cons, List.not_mem_nil, or_false] at hp
  rcases hp with hp | hp <;> subst hp <;> simp

theorem two_consecutive_months_exact_fit_witness :
    (time_data vAdj).length = 2 ∧
    (⟨0, 3, 1, 1⟩ : MonthlyPoint).predicted_treatment = ((1 : Nat) : ℚ) := by
  refine ⟨rfl, ?_⟩
  exact two_consecutive_months_exact_fit vAdj rfl [⟨0, 3, 1, 1⟩, ⟨1, 4, 1, 1⟩]
    monthlyTrend_vAdj_eval ⟨0, 3, 1, 1⟩ (by simp)

/-- C9 (counterexample): the records of `vGap` span exactly two distinct
months (months 0 and 2), but the synthesized zero-count gap row makes three
resampled points, and the least-squares fit is not exact: month 0 has actual
count 1 while its prediction is 2/3 (which is strictly below 1). -/
theorem two_month_gap_fit_not_exact :
    distinctMonths vGap = 2 ∧
    monthlyTrend vGap =
      Except.ok [⟨0, 0, 1, 2/3⟩, ⟨1, 1, 0, 2/3⟩, ⟨2, 2, 1, 2/3⟩] ∧
    (2/3 : ℚ) < 1 :=
  ⟨rfl, monthlyTrend_vGap_eval, by norm_num⟩
